import Mathlib

/-!
Shallow embedding of the `GlooRouter` traffic-weight reconciler
(`DeepIntent/pes-flagger`, package `router`).

The repository ships three successive revisions of the same unit:
* `V1` — first revision in `src/pkg/router/gloo.go` (lines 27-166):
  append-only Reconcile, in-place indexed weight update in SetRoutes,
  canary-reference GetRoutes, guarded removal in Finalize.
* `V2` — second revision in `src/pkg/router/gloo.go` (lines 195-362):
  structural-diff-gated full-replacement Reconcile, full-replacement
  SetRoutes, primary-reference GetRoutes, no-op Finalize.
* `V3` — `src/unnamed/part_000`: draft revision with the
  `make(len+1)`-then-`append` reallocation in Reconcile, the
  loop-copy weight assignment in SetRoutes, and the unguarded
  index removal in Finalize.

The remote store is modelled as `Option UpstreamGroup` (the single group
the descriptor addresses; `none` = absent).  Every operation returns a
`StepResult` recording the outcome, the number of remote `Get` and
`Update` calls performed, and the store after the call (`Update` is
modelled as always succeeding and persisting the written group).
Operations that can panic in Go return `Option` (`none` = panic).
-/

namespace Gloo

inductive GlooError where
  | groupNotFound
  | queryError
  | insufficientDestinations
  | destinationNotFound
  | invalidWeights
deriving DecidableEq

structure ResourceRef where
  name : String
  nspace : String
deriving DecidableEq

structure Destination where
  upstream : ResourceRef
deriving DecidableEq

structure WeightedDestination where
  destination : Destination
  weight : Nat
deriving DecidableEq

structure UpstreamGroupSpec where
  destinations : List WeightedDestination
deriving DecidableEq

structure UpstreamGroup where
  spec : UpstreamGroupSpec
deriving DecidableEq

/-- Rollout descriptor: the fields of `flaggerv1.Canary` the router reads. -/
structure Canary where
  targetRefName : String
  nspace : String
  port : Nat
deriving DecidableEq

instance {ε α : Type} [DecidableEq ε] [DecidableEq α] :
    DecidableEq (Except ε α) := fun a b =>
  match a, b with
  | .ok x, .ok y =>
    if h : x = y then isTrue (by rw [h])
    else isFalse (fun he => h (Except.ok.inj he))
  | .ok _, .error _ => isFalse (fun he => Except.noConfusion he)
  | .error _, .ok _ => isFalse (fun he => Except.noConfusion he)
  | .error x, .error y =>
    if h : x = y then isTrue (by rw [h])
    else isFalse (fun he => h (Except.error.inj he))

/-- Result of one router operation: the returned value or error, the number
of remote `Get` calls, the number of remote `Update` calls, and the stored
group after the operation. -/
structure StepResult (α : Type) where
  res : Except GlooError α
  gets : Nat
  updates : Nat
  store : Option UpstreamGroup
deriving DecidableEq

/-- Modelled from the spec: `canary.GetServiceNames()` lives in the flagger
library outside `src/`; spec §4.2 defines `apexName(d)` as the target
reference name, matching `GetRoutes`, which reads `Spec.TargetRef.Name`
directly. -/
def apexName (c : Canary) : String := c.targetRefName

/-- Name derivation `fmt.Sprintf("%s-canary-%v", apexName, port)`. -/
def canaryName (c : Canary) : String :=
  apexName c ++ "-canary-" ++ toString c.port

/-- Name derivation `fmt.Sprintf("%s-%v", apexName, port)`. -/
def primaryName (c : Canary) : String :=
  apexName c ++ "-" ++ toString c.port

/-- Predicate used by every `for ... range` lookup:
`dst.Destination.Upstream.Name == n`. -/
def isNamed (n : String) (d : WeightedDestination) : Bool :=
  decide (d.destination.upstream.name = n)

/-- Go conversion `uint32(x)` for `x : int`: truncation to the low 32 bits,
i.e. reduction modulo `2^32`. -/
def u32 (x : Int) : Nat := (x % 4294967296).toNat

/-- Assignment `s[i].Weight = w` on a slice (no-op if `i` is out of range;
callers below only use it in range). -/
def setWeightAt (l : List WeightedDestination) (i : Nat) (w : Nat) :
    List WeightedDestination :=
  match l.get? i with
  | some e => l.set i { e with weight := w }
  | none => l

/-- Helper `remove(s, i)`: `s[i] = s[len(s)-1]; return s[:len(s)-1]`.
`none` models the Go runtime panic (index out of range) when the slice is
empty or `i` is out of range. -/
def remove (s : List WeightedDestination) (i : Nat) :
    Option (List WeightedDestination) :=
  match s.getLast? with
  | none => none
  | some last => if i < s.length then some ((s.set i last).dropLast) else none

namespace V1

/-- Revision 1 `Reconcile` (gloo.go:27): if the canary-named destination is
absent, append it at weight 0 (copying the existing destinations first) and
update; if present, perform no write. -/
def Reconcile (c : Canary) (st : Option UpstreamGroup) : StepResult Unit :=
  match st with
  | none => ⟨.error .groupNotFound, 1, 0, none⟩
  | some g =>
    match g.spec.destinations.find? (isNamed (canaryName c)) with
    | some _ => ⟨.ok (), 1, 0, some g⟩
    | none =>
      let d : WeightedDestination := ⟨⟨⟨canaryName c, c.nspace⟩⟩, 0⟩
      ⟨.ok (), 1, 1, some ⟨⟨g.spec.destinations ++ [d]⟩⟩⟩

/-- Revision 1 `GetRoutes` (gloo.go:76): canary entry is the reference;
`canaryWeight = int(w)/10`, `primaryWeight = 100 - canaryWeight`; error
when the canary-named entry is absent. -/
def GetRoutes (c : Canary) (st : Option UpstreamGroup) :
    StepResult (Int × Int × Bool) :=
  match st with
  | none => ⟨.error .queryError, 1, 0, none⟩
  | some g =>
    if g.spec.destinations.length < 2 then
      ⟨.error .insufficientDestinations, 1, 0, some g⟩
    else
      match g.spec.destinations.find? (isNamed (canaryName c)) with
      | some d =>
        ⟨.ok (100 - (d.weight : Int) / 10, (d.weight : Int) / 10, false),
          1, 0, some g⟩
      | none => ⟨.error .destinationNotFound, 1, 0, some g⟩

/-- Revision 1 `SetRoutes` (gloo.go:108): reject the 0/0 split before any
remote call; otherwise overwrite the canary entry's weight in place through
its index (silently skipping if absent) and always update. -/
def SetRoutes (c : Canary) (primaryWeight canaryWeight : Int) (_m : Bool)
    (st : Option UpstreamGroup) : StepResult Unit :=
  if primaryWeight = 0 ∧ canaryWeight = 0 then
    ⟨.error .invalidWeights, 0, 0, st⟩
  else
    match st with
    | none => ⟨.error .queryError, 1, 0, none⟩
    | some g =>
      let ds := g.spec.destinations
      let ds2 :=
        match ds.findIdx? (isNamed (canaryName c)) with
        | some i => setWeightAt ds i (u32 (canaryWeight * 10))
        | none => ds
      ⟨.ok (), 1, 1, some ⟨⟨ds2⟩⟩⟩

/-- Revision 1 `Finalize` (gloo.go:140): remove the canary entry by
swap-with-last if present (the found index is always in range, so this
revision cannot panic) and always write back. -/
def Finalize (c : Canary) (st : Option UpstreamGroup) :
    Option (StepResult Unit) :=
  match st with
  | none => some ⟨.error .queryError, 1, 0, none⟩
  | some g =>
    match g.spec.destinations.findIdx? (isNamed (canaryName c)) with
    | none => some ⟨.ok (), 1, 1, some g⟩
    | some i =>
      (remove g.spec.destinations i).map
        (fun l => ⟨.ok (), 1, 1, some ⟨⟨l⟩⟩⟩)

end V1

namespace V2

/-- Canonical two-entry shape `[primary@1000, canary@0]` built by revision 2
`Reconcile` (gloo.go:200). -/
def desiredSpec (c : Canary) : UpstreamGroupSpec :=
  ⟨[⟨⟨⟨primaryName c, c.nspace⟩⟩, 1000⟩, ⟨⟨⟨canaryName c, c.nspace⟩⟩, 0⟩]⟩

/-- Structural equality of `cmp.Diff` with
`cmpopts.IgnoreFields(WeightedDestination{}, "Weight")`: the destination
lists agree on identity and order, weights ignored. -/
def shapeEq (a b : UpstreamGroupSpec) : Bool :=
  decide (a.destinations.map (fun d => d.destination)
    = b.destinations.map (fun d => d.destination))

/-- Revision 2 `Reconcile` (gloo.go:195): replace the stored spec by the
canonical two-entry shape, but only when the stored shape differs
structurally (weight field ignored); otherwise perform no write. -/
def Reconcile (c : Canary) (st : Option UpstreamGroup) : StepResult Unit :=
  match st with
  | none => ⟨.error .groupNotFound, 1, 0, none⟩
  | some g =>
    if shapeEq (desiredSpec c) g.spec then ⟨.ok (), 1, 0, some g⟩
    else ⟨.ok (), 1, 1, some ⟨desiredSpec c⟩⟩

/-- Revision 2 `GetRoutes` (gloo.go:278): primary entry is the reference;
when no primary-named entry exists the loop falls through and the named
zero results are returned with a nil error. -/
def GetRoutes (c : Canary) (st : Option UpstreamGroup) :
    StepResult (Int × Int × Bool) :=
  match st with
  | none => ⟨.error .queryError, 1, 0, none⟩
  | some g =>
    if g.spec.destinations.length < 2 then
      ⟨.error .insufficientDestinations, 1, 0, some g⟩
    else
      match g.spec.destinations.find? (isNamed (primaryName c)) with
      | some d =>
        ⟨.ok ((d.weight : Int) / 10, 100 - (d.weight : Int) / 10, false),
          1, 0, some g⟩
      | none => ⟨.ok (0, 0, false), 1, 0, some g⟩

/-- Revision 2 `SetRoutes` (gloo.go:310): reject the 0/0 split before any
remote call; otherwise fully replace the destination list with the two
canonical entries at `uint32(percent*10)` and update. -/
def SetRoutes (c : Canary) (primaryWeight canaryWeight : Int) (_m : Bool)
    (st : Option UpstreamGroup) : StepResult Unit :=
  if primaryWeight = 0 ∧ canaryWeight = 0 then
    ⟨.error .invalidWeights, 0, 0, st⟩
  else
    match st with
    | none => ⟨.error .queryError, 1, 0, none⟩
    | some _ =>
      ⟨.ok (), 1, 1, some ⟨⟨[
        ⟨⟨⟨primaryName c, c.nspace⟩⟩, u32 (primaryWeight * 10)⟩,
        ⟨⟨⟨canaryName c, c.nspace⟩⟩, u32 (canaryWeight * 10)⟩]⟩⟩⟩

/-- Revision 2 `Finalize` (gloo.go:359): a stub that performs no remote
call and returns nil. -/
def Finalize (_c : Canary) (st : Option UpstreamGroup) : StepResult Unit :=
  ⟨.ok (), 0, 0, st⟩

end V2

namespace V3

/-- Go zero value of `gloov1.WeightedDestination`. -/
def zeroDest : WeightedDestination := ⟨⟨⟨"", ""⟩⟩, 0⟩

/-- Revision 3 `Reconcile` found-branch loop (part_000:60-66):
`newDestinations = make([]WeightedDestination, len+1)` (that many zero
values), then each original entry is appended after them, and at the
canary's original index the weight field (of the zero-value slot there)
is set to 0. -/
def reconcileFoundLoop (c : Canary) (dests : List WeightedDestination) :
    List WeightedDestination :=
  (dests.foldl
    (fun (acc : List WeightedDestination × Nat) dst =>
      let l := acc.1 ++ [dst]
      (if isNamed (canaryName c) dst then setWeightAt l acc.2 0 else l,
        acc.2 + 1))
    (List.replicate (dests.length + 1) zeroDest, 0)).1

/-- Revision 3 `Reconcile` (part_000:27): append the canary entry when
absent, run the reallocation loop when present, and write back
unconditionally in both cases. -/
def Reconcile (c : Canary) (st : Option UpstreamGroup) : StepResult Unit :=
  match st with
  | none => ⟨.error .groupNotFound, 1, 0, none⟩
  | some g =>
    let newDests :=
      match g.spec.destinations.find? (isNamed (canaryName c)) with
      | none => g.spec.destinations ++ [⟨⟨⟨canaryName c, c.nspace⟩⟩, 0⟩]
      | some _ => reconcileFoundLoop c g.spec.destinations
    ⟨.ok (), 1, 1, some ⟨⟨newDests⟩⟩⟩

/-- Revision 3 `GetRoutes` (part_000:83): identical to revision 2. -/
def GetRoutes (c : Canary) (st : Option UpstreamGroup) :
    StepResult (Int × Int × Bool) :=
  match st with
  | none => ⟨.error .queryError, 1, 0, none⟩
  | some g =>
    if g.spec.destinations.length < 2 then
      ⟨.error .insufficientDestinations, 1, 0, some g⟩
    else
      match g.spec.destinations.find? (isNamed (primaryName c)) with
      | some d =>
        ⟨.ok ((d.weight : Int) / 10, 100 - (d.weight : Int) / 10, false),
          1, 0, some g⟩
      | none => ⟨.ok (0, 0, false), 1, 0, some g⟩

/-- Revision 3 `SetRoutes` (part_000:115): the loop body assigns the new
weight to the `range` value copy `dst`, so the stored destinations are
never modified; the group is then written back unchanged. -/
def SetRoutes (_c : Canary) (primaryWeight canaryWeight : Int) (_m : Bool)
    (st : Option UpstreamGroup) : StepResult Unit :=
  if primaryWeight = 0 ∧ canaryWeight = 0 then
    ⟨.error .invalidWeights, 0, 0, st⟩
  else
    match st with
    | none => ⟨.error .queryError, 1, 0, none⟩
    | some g => ⟨.ok (), 1, 1, some g⟩

/-- Revision 3 `Finalize` (part_000:146): `var idx int` defaults to 0 when
the canary-named entry is absent, and `remove` is called unconditionally;
`none` models the resulting panic on an empty destination list. -/
def Finalize (c : Canary) (st : Option UpstreamGroup) :
    Option (StepResult Unit) :=
  match st with
  | none => some ⟨.error .queryError, 1, 0, none⟩
  | some g =>
    let idx := (g.spec.destinations.findIdx? (isNamed (canaryName c))).getD 0
    (remove g.spec.destinations idx).map
      (fun l => ⟨.ok (), 1, 1, some ⟨⟨l⟩⟩⟩)

end V3

/-! Concrete inputs used by the evaluation theorems below. -/

/-- Sample rollout descriptor: target `app`, namespace `test`, port 8080,
so the derived primary name is `app-8080` and the derived canary name is
`app-canary-8080`. -/
def d0 : Canary := ⟨"app", "test", 8080⟩

/-- Destination named with the derived primary name, at weight `w`. -/
def primaryDest (w : Nat) : WeightedDestination :=
  ⟨⟨⟨"app-8080", "test"⟩⟩, w⟩

/-- Destination named with the derived canary name, at weight `w`. -/
def canaryDest (w : Nat) : WeightedDestination :=
  ⟨⟨⟨"app-canary-8080", "test"⟩⟩, w⟩

/-- Sibling destination whose name matches neither derived name. -/
def strayDestA : WeightedDestination := ⟨⟨⟨"someservice", "test"⟩⟩, 500⟩

/-- Second sibling destination matching neither derived name. -/
def strayDestB : WeightedDestination := ⟨⟨⟨"otherservice", "test"⟩⟩, 500⟩

/-- Group wrapper around a destination list. -/
def grp (l : List WeightedDestination) : UpstreamGroup := ⟨⟨l⟩⟩

/-- Stored state holding the canonical pair `[primary@1000, canary@0]`. -/
def stPC : Option UpstreamGroup := some (grp [primaryDest 1000, canaryDest 0])

/-! Claim theorems. -/

/-- C1: the round trip `SetRoutes(d, p, c, false)` then `GetRoutes(d)`
does NOT return `(p, c, false)` in the `part_000` revision: its weight
assignment targets the `range` loop copy, so the stored weights stay
`(1000, 0)` and `GetRoutes` reports `(100, 0, false)` after
`SetRoutes(d, 70, 30, false)`.  The two `gloo.go` revisions do realize the
round trip at the same input. -/
theorem c1_v3_set_then_get_returns_stale_split :
    (V3.SetRoutes d0 70 30 false stPC).res = .ok ()
  ∧ (V3.SetRoutes d0 70 30 false stPC).store = stPC
  ∧ (V3.GetRoutes d0 (V3.SetRoutes d0 70 30 false stPC).store).res
      = .ok (100, 0, false)
  ∧ (V1.GetRoutes d0 (V1.SetRoutes d0 70 30 false stPC).store).res
      = .ok (70, 30, false)
  ∧ (V2.GetRoutes d0 (V2.SetRoutes d0 70 30 false stPC).store).res
      = .ok (70, 30, false) := by
  decide

/-- C2 counterexample: in the `part_000` revision `Reconcile` writes
unconditionally, so two successive calls with no intervening external
mutation both succeed and each performs one remote `Update` — two writes,
not at most one. -/
theorem c2_counterexample_v3_reconcile_twice_two_writes :
    (V3.Reconcile d0 stPC).res = .ok ()
  ∧ (V3.Reconcile d0 stPC).updates = 1
  ∧ (V3.Reconcile d0 (V3.Reconcile d0 stPC).store).res = .ok ()
  ∧ (V3.Reconcile d0 (V3.Reconcile d0 stPC).store).updates = 1 := by
  decide

/-- C2 (amended): in both `gloo.go` revisions, two successive `Reconcile`
calls with no intervening external mutation perform at most one remote
`Update` in total whenever the first call succeeds: the second call finds
the canary entry already present (revision 1) or no structural difference
ignoring weights (revision 2) and issues no write. -/
theorem c2_reconcile_twice_at_most_one_update (c : Canary)
    (st : Option UpstreamGroup) :
    ((V1.Reconcile c st).res = .ok () →
      (V1.Reconcile c st).updates
        + (V1.Reconcile c (V1.Reconcile c st).store).updates ≤ 1)
  ∧ ((V2.Reconcile c st).res = .ok () →
      (V2.Reconcile c st).updates
        + (V2.Reconcile c (V2.Reconcile c st).store).updates ≤ 1) := by
  constructor
  · cases st with
    | none => intro h; simp [V1.Reconcile] at h
    | some g =>
      intro _
      cases hf : g.spec.destinations.find? (isNamed (canaryName c)) with
      | some d => simp [V1.Reconcile, hf]
      | none =>
        have hfind2 :
            (g.spec.destinations ++
              [(⟨⟨⟨canaryName c, c.nspace⟩⟩, 0⟩ : WeightedDestination)]).find?
              (isNamed (canaryName c))
            = some (⟨⟨⟨canaryName c, c.nspace⟩⟩, 0⟩ : WeightedDestination) := by
          rw [List.find?_append, hf]
          simp [isNamed]
        simp [V1.Reconcile, hf, hfind2]
  · cases st with
    | none => intro h; simp [V2.Reconcile] at h
    | some g =>
      intro _
      by_cases hs : V2.shapeEq (V2.desiredSpec c) g.spec
      · simp [V2.Reconcile, hs]
      · have hrefl : V2.shapeEq (V2.desiredSpec c) (V2.desiredSpec c) = true := by
          simp [V2.shapeEq]
        simp [V2.Reconcile, hs, hrefl]

/-- C2 witness: concrete second revision run in which the first `Reconcile`
succeeds and the two calls together perform at most one `Update`. -/
theorem c2_witness :
    (V2.Reconcile d0 (some (grp [primaryDest 1000]))).res = .ok ()
  ∧ (V2.Reconcile d0 (some (grp [primaryDest 1000]))).updates
      + (V2.Reconcile d0
          (V2.Reconcile d0 (some (grp [primaryDest 1000]))).store).updates
      ≤ 1 :=
  ⟨by decide,
    (c2_reconcile_twice_at_most_one_update d0
      (some (grp [primaryDest 1000]))).2 (by decide)⟩

/-- C3: in the `part_000` revision, `Finalize` on a group that contains no
canary-named entry succeeds but removes the FIRST destination (the unset
found index defaults to 0), so a pre-existing non-canary entry does not
survive; the first `gloo.go` revision leaves the entries unchanged at the
same input. -/
theorem c3_v3_finalize_without_canary_removes_first_entry :
    V3.Finalize d0 (some (grp [primaryDest 700, strayDestB]))
      = some ⟨.ok (), 1, 1, some (grp [strayDestB])⟩
  ∧ V1.Finalize d0 (some (grp [primaryDest 700, strayDestB]))
      = some ⟨.ok (), 1, 1, some (grp [primaryDest 700, strayDestB])⟩ := by
  decide

/-- C4: in the `part_000` revision, `Finalize` on a stored group whose
destination list is empty panics (the removal helper evaluates
`s[len(s)-1]` on an empty slice), modelled here as `none`; the first
`gloo.go` revision returns normally on the same input. -/
theorem c4_v3_finalize_empty_group_panics :
    V3.Finalize d0 (some (grp [])) = none
  ∧ V1.Finalize d0 (some (grp [])) = some ⟨.ok (), 1, 1, some (grp [])⟩ := by
  decide

/-- C5: in the `part_000` revision, when the canary entry is already
present `Reconcile` reallocates with `make(len+1)` and then appends, so the
written list gains `len+1` zero-valued entries in front of the originals
instead of being left unchanged; the first `gloo.go` revision performs the
claimed no-op. -/
theorem c5_v3_reconcile_upsert_duplicates_zero_slots :
    V3.Reconcile d0 stPC
      = ⟨.ok (), 1, 1, some (grp
          [V3.zeroDest, V3.zeroDest, V3.zeroDest,
            primaryDest 1000, canaryDest 0])⟩
  ∧ V1.Reconcile d0 stPC = ⟨.ok (), 1, 0, stPC⟩ := by
  decide

/-- C6: in all three revisions, `SetRoutes(d, 0, 0, m)` returns the
invalid-weights error before any remote call: no `Get`, no `Update`, and
the stored group is unchanged. -/
theorem c6_setroutes_zero_zero_rejected_without_remote_calls (c : Canary)
    (m : Bool) (st : Option UpstreamGroup) :
    V1.SetRoutes c 0 0 m st = ⟨.error .invalidWeights, 0, 0, st⟩
  ∧ V2.SetRoutes c 0 0 m st = ⟨.error .invalidWeights, 0, 0, st⟩
  ∧ V3.SetRoutes c 0 0 m st = ⟨.error .invalidWeights, 0, 0, st⟩ := by
  refine ⟨?_, ?_, ?_⟩ <;>
    simp [V1.SetRoutes, V2.SetRoutes, V3.SetRoutes]

/-- C7: on a two-entry group bearing neither derived name, the two
primary-reference revisions of `GetRoutes` fall through their lookup loop
and return `(0, 0, false)` with a nil error instead of a
destination-not-found error; only the canary-reference revision returns
the error. -/
theorem c7_getroutes_missing_reference_nil_error :
    (V2.GetRoutes d0 (some (grp [strayDestA, strayDestB]))).res
      = .ok (0, 0, false)
  ∧ (V3.GetRoutes d0 (some (grp [strayDestA, strayDestB]))).res
      = .ok (0, 0, false)
  ∧ (V1.GetRoutes d0 (some (grp [strayDestA, strayDestB]))).res
      = .error .destinationNotFound := by
  decide

/-- C8: in all three revisions, `GetRoutes` after a successful read fails
with the insufficient-destinations error exactly when the stored group has
fewer than two destination entries. -/
theorem c8_getroutes_insufficient_destinations_iff (c : Canary)
    (g : UpstreamGroup) :
    ((V1.GetRoutes c (some g)).res = .error .insufficientDestinations
      ↔ g.spec.destinations.length < 2)
  ∧ ((V2.GetRoutes c (some g)).res = .error .insufficientDestinations
      ↔ g.spec.destinations.length < 2)
  ∧ ((V3.GetRoutes c (some g)).res = .error .insufficientDestinations
      ↔ g.spec.destinations.length < 2) := by
  refine ⟨?_, ?_, ?_⟩
  · by_cases hlen : g.spec.destinations.length < 2
    · simp [V1.GetRoutes, hlen]
    · cases hf : g.spec.destinations.find? (isNamed (canaryName c)) <;>
        simp [V1.GetRoutes, hlen, hf]
  · by_cases hlen : g.spec.destinations.length < 2
    · simp [V2.GetRoutes, hlen]
    · cases hf : g.spec.destinations.find? (isNamed (primaryName c)) <;>
        simp [V2.GetRoutes, hlen, hf]
  · by_cases hlen : g.spec.destinations.length < 2
    · simp [V3.GetRoutes, hlen]
    · cases hf : g.spec.destinations.find? (isNamed (primaryName c)) <;>
        simp [V3.GetRoutes, hlen, hf]

/-- C8 witness: on a one-entry group every revision's `GetRoutes` reports
insufficient destinations. -/
theorem c8_witness :
    (V1.GetRoutes d0 (some (grp [primaryDest 1000]))).res
      = .error .insufficientDestinations :=
  (c8_getroutes_insufficient_destinations_iff d0 (grp [primaryDest 1000])).1.mpr
    (by decide)

/-- C9: on a group with at least two entries whose reference entry (first
canary-named entry for revision 1, first primary-named entry for revisions
2 and 3) carries internal weight in 0..1000, `GetRoutes` reports that
entry's percent as its weight divided by 10 with truncation, the
counterpart percent as 100 minus that percent, and `mirrored = false`. -/
theorem c9_getroutes_weight_percent_formula (c : Canary)
    (g : UpstreamGroup) (ec ep : WeightedDestination)
    (h2 : 2 ≤ g.spec.destinations.length)
    (hc : g.spec.destinations.find? (isNamed (canaryName c)) = some ec)
    (hp : g.spec.destinations.find? (isNamed (primaryName c)) = some ep)
    (_hwc : ec.weight ≤ 1000) (_hwp : ep.weight ≤ 1000) :
    (V1.GetRoutes c (some g)).res
      = .ok (100 - (ec.weight : Int) / 10, (ec.weight : Int) / 10, false)
  ∧ (V2.GetRoutes c (some g)).res
      = .ok ((ep.weight : Int) / 10, 100 - (ep.weight : Int) / 10, false)
  ∧ (V3.GetRoutes c (some g)).res
      = .ok ((ep.weight : Int) / 10, 100 - (ep.weight : Int) / 10, false) := by
  have hlen : ¬ g.spec.destinations.length < 2 := by omega
  refine ⟨?_, ?_, ?_⟩ <;>
    simp [V1.GetRoutes, V2.GetRoutes, V3.GetRoutes, hlen, hc, hp]

/-- C9 witness: on `[primary@700, canary@300]` all three revisions report
`(70, 30, false)`. -/
theorem c9_witness :
    (V1.GetRoutes d0 (some (grp [primaryDest 700, canaryDest 300]))).res
      = .ok (70, 30, false)
  ∧ (V2.GetRoutes d0 (some (grp [primaryDest 700, canaryDest 300]))).res
      = .ok (70, 30, false)
  ∧ (V3.GetRoutes d0 (some (grp [primaryDest 700, canaryDest 300]))).res
      = .ok (70, 30, false) := by
  have h := c9_getroutes_weight_percent_formula d0
    (grp [primaryDest 700, canaryDest 300]) (canaryDest 300) (primaryDest 700)
    (by decide) (by decide) (by decide) (by decide) (by decide)
  norm_num [canaryDest, primaryDest] at h
  exact h

/-- C10: `SetRoutes` accepts percents outside 0..100 — only the both-zero
split is rejected — and stores `uint32(percent * 10)` reduced modulo
`2^32`, so `canaryWeight = -1` persists the wrapped weight `2^32 - 10`,
far outside the documented 0..1000 range (second revision shown with
`primaryWeight = 500` as well, first revision with the in-place update). -/
theorem c10_setroutes_accepts_out_of_range_and_wraps :
    V2.SetRoutes d0 500 (-1) false stPC
      = ⟨.ok (), 1, 1, some (grp [primaryDest 5000, canaryDest 4294967286])⟩
  ∧ V1.SetRoutes d0 101 (-1) false stPC
      = ⟨.ok (), 1, 1, some (grp [primaryDest 1000, canaryDest 4294967286])⟩ := by
  decide

end Gloo
